import Mathlib

/-!
Verification development for the identity-and-access security core of the
ghostworker-flow backend: ephemeral verification tokens, brute-force lockout,
the sliding-window rate limiter, the token codec and the auth flows.

The definitions below are a shallow embedding of the Python source
(`app/db/redis.py`, `app/services/auth_service.py`,
`app/middleware/rate_limiter.py`, `app/core/security.py`).  The shared
key-value store is modelled as a function from keys to optional records,
with an explicit `now : Nat` clock (seconds); a record whose absolute
expiry has passed behaves as absent, which is exactly how a TTL key behaves
in the store.
-/

namespace GhostFlow

/-- A stored email-verification token record: the JSON value
`{"user_id": ..., "used": ...}` written by `store_verification_token`,
together with the key's absolute expiry time (the TTL is relative in the
store; we keep the absolute instant so that one clock `now` decides
liveness). -/
structure VRecord where
  user_id : String
  used : Bool
  expiry : Nat
  deriving DecidableEq, Repr

/-- The `verification:*` keyspace of the store. -/
def VStore := String → Option VRecord

/-- Write one key of a `VStore`. -/
def setKey (s : VStore) (k : String) (v : VRecord) : VStore :=
  fun t => if t = k then some v else s t

/-- Model of `RedisService.get_verification_token`: read the record; a key whose TTL
has elapsed has been removed by the store and reads as absent. -/
def get_verification_token (s : VStore) (now : Nat) (token : String) : Option VRecord :=
  match s token with
  | some r => if now < r.expiry then some r else none
  | none => none

/-- Model of `RedisService.store_verification_token`: store
`{"user_id": user_id, "used": false}` under the token with a TTL of
`expire_minutes` minutes. -/
def store_verification_token (s : VStore) (now : Nat) (token user_id : String)
    (expire_minutes : Nat) : VStore :=
  setKey s token ⟨user_id, false, now + expire_minutes * 60⟩

/-- Model of `RedisService.mark_verification_used`: read the record, flip `used` to
true, read the remaining TTL and, when it is positive, write the record
back with that same TTL.  Returns the updated store and the boolean result
of the call. -/
def mark_verification_used (s : VStore) (now : Nat) (token : String) : VStore × Bool :=
  match get_verification_token s now token with
  | some data =>
      let ttl := data.expiry - now
      if 0 < ttl then (setKey s token ⟨data.user_id, true, now + ttl⟩, true)
      else (s, false)
  | none => (s, false)

/-- The fields of a `User` row that the auth flows consult. -/
structure User where
  hashed_password : Option String
  is_active : Bool
  is_email_verified : Bool
  deriving DecidableEq, Repr

/-- The user table, keyed by id (or by lower-cased email where the flow
looks a user up by email). -/
def Users := String → Option User

/-- Outcomes of `AuthService.verify_email`.  The source signals the first
three with distinct `ValidationError` messages ("Invalid or expired
verification token", "Verification token has already been used", "Email is
already verified") and the fourth with `NotFoundError`. -/
inductive VerifyResult
  | ok (user_id : String)
  | invalidOrExpired
  | alreadyUsed
  | userNotFound
  | alreadyVerified
  deriving DecidableEq, Repr

/-- Decision phase of `AuthService.verify_email`: the outcome as computed
from one snapshot of the token store and the user table, before any write.
In the source this is the code from `get_verification_token` down to the
`is_email_verified` test. -/
def verify_decision (s : VStore) (us : Users) (now : Nat) (token : String) : VerifyResult :=
  match get_verification_token s now token with
  | none => .invalidOrExpired
  | some data =>
      if data.used then .alreadyUsed
      else
        match us data.user_id with
        | none => .userNotFound
        | some u =>
            if u.is_email_verified then .alreadyVerified
            else .ok data.user_id

/-- Write phase of `AuthService.verify_email`: on the success path the user
row is flagged verified and the token is marked used; every failure path
raises before writing, leaving both unchanged. -/
def verify_commit (s : VStore) (us : Users) (now : Nat) (token : String) :
    VerifyResult → VStore × Users
  | .ok uid =>
      ((mark_verification_used s now token).1,
       fun k => if k = uid then (us k).map (fun u => { u with is_email_verified := true })
                else us k)
  | _ => (s, us)

/-- Model of `AuthService.verify_email`, run sequentially: decide from the current
state, then apply the writes of the taken branch. -/
def verify_email (s : VStore) (us : Users) (now : Nat) (token : String) :
    VerifyResult × VStore × Users :=
  let r := verify_decision s us now token
  let p := verify_commit s us now token r
  (r, p.1, p.2)

/-- Model of `AuthService._validate_password_strength`: the list of error messages
collected for the password; the source raises `ValidationError` exactly
when this list is nonempty. -/
def validate_password_strength (password : String) : List String :=
  (if password.length < 8 then ["Password must be at least 8 characters"] else []) ++
  (if password.data.any Char.isUpper then []
   else ["Password must contain at least one uppercase letter"]) ++
  (if password.data.any Char.isLower then []
   else ["Password must contain at least one lowercase letter"]) ++
  (if password.data.any Char.isDigit then []
   else ["Password must contain at least one number"])

/-- The storing step of `AuthService.request_password_reset`: the record
`{"user_id": ..., "used": false}` is written under the `password_reset:*`
key with a fixed TTL of one hour (3600 s). -/
def store_reset_token (s : VStore) (now : Nat) (token user_id : String) : VStore :=
  setKey s token ⟨user_id, false, now + 3600⟩

/-- Outcomes of `AuthService.reset_password`.  The source reports a missing
or already-used record with the single message "Invalid or expired reset
token". -/
inductive ResetResult
  | ok (user_id : String)
  | validationMismatch
  | validationWeak (errors : List String)
  | invalidOrUsed
  | userNotFound
  deriving DecidableEq, Repr

/-- Model of `AuthService.reset_password`.  `hashp` stands for `hash_password`
(bcrypt), passed in abstractly.  On success the token record is written
back with `used := true` and a fresh one-hour TTL
(`timedelta(hours=1)` in the source), not the record's remaining TTL. -/
def reset_password (hashp : String → String) (rs : VStore) (us : Users) (now : Nat)
    (token new_password confirm_password : String) : ResetResult × VStore × Users :=
  if new_password ≠ confirm_password then (.validationMismatch, rs, us)
  else if validate_password_strength new_password ≠ [] then
    (.validationWeak (validate_password_strength new_password), rs, us)
  else
    match get_verification_token rs now token with
    | none => (.invalidOrUsed, rs, us)
    | some d =>
        if d.used then (.invalidOrUsed, rs, us)
        else
          match us d.user_id with
          | none => (.userNotFound, rs, us)
          | some u =>
              (.ok d.user_id,
               setKey rs token ⟨d.user_id, true, now + 3600⟩,
               fun k => if k = d.user_id then
                   some { u with hashed_password := some (hashp new_password) }
                 else us k)

/-- Two concurrent `verify_email` calls for the same raw token under the
schedule in which both read phases (`get_verification_token`, the `used`
test and the user lookup) complete before either write phase runs.  The
source separates the read (`await redis_service.get_verification_token`)
from the write (`await redis_service.mark_verification_used`) by several
suspension points with no transaction around them, so this interleaving is
admitted by the code. -/
def verify_email_race (s : VStore) (us : Users) (now : Nat) (token : String) :
    (VerifyResult × VerifyResult) × VStore × Users :=
  let rA := verify_decision s us now token
  let rB := verify_decision s us now token
  let pA := verify_commit s us now token rA
  let pB := verify_commit pA.1 pA.2 now token rB
  ((rA, rB), pB.1, pB.2)

/-- A concrete token store holding one live, unused verify-email token. -/
def demoStore : VStore :=
  fun t => if t = "tok" then some ⟨"u1", false, 900⟩ else none

/-- A concrete user table holding one active, unverified user. -/
def demoUsers : Users :=
  fun k => if k = "u1" then some ⟨some "pw", true, false⟩ else none

/-- A concrete reset-token store: token issued at time 0, so expiry 3600. -/
def demoResetStore : VStore :=
  fun t => if t = "rtok" then some ⟨"u1", false, 3600⟩ else none

/-- A `failed_login:*` counter: the attempt count with the key's absolute
expiry (set once, on the first failure). -/
structure FRecord where
  count : Nat
  expiry : Nat
  deriving DecidableEq, Repr

/-- The `failed_login:*` keyspace of the store. -/
def FStore := String → Option FRecord

/-- Write (or delete) one key of an `FStore`. -/
def setFKey (s : FStore) (k : String) (v : Option FRecord) : FStore :=
  fun t => if t = k then v else s t

/-- Read a counter, treating an expired key as absent. -/
def liveF (s : FStore) (now : Nat) (identifier : String) : Option FRecord :=
  match s identifier with
  | some r => if now < r.expiry then some r else none
  | none => none

/-- Model of `RedisService.record_failed_login`: INCR the counter (an absent or
expired key restarts at 1); only the 1 transition sets the TTL, so the
expiry stays anchored at the first failure.  Returns the updated store and
the `(attempt_count, is_locked)` pair returned by the source. -/
def record_failed_login (s : FStore) (now : Nat) (identifier : String)
    (max_attempts lockout_minutes : Nat) : FStore × Nat × Bool :=
  match liveF s now identifier with
  | some r =>
      (setFKey s identifier (some ⟨r.count + 1, r.expiry⟩),
       r.count + 1, max_attempts ≤ r.count + 1)
  | none =>
      (setFKey s identifier (some ⟨1, now + lockout_minutes * 60⟩),
       1, max_attempts ≤ 1)

/-- Model of `RedisService.clear_failed_logins`: delete the counter. -/
def clear_failed_logins (s : FStore) (identifier : String) : FStore :=
  setFKey s identifier none

/-- Model of `RedisService.is_account_locked`: the count, if the key is present,
compared against `max_attempts`. -/
def is_account_locked (s : FStore) (now : Nat) (identifier : String)
    (max_attempts : Nat) : Bool :=
  match liveF s now identifier with
  | some r => max_attempts ≤ r.count
  | none => false

/-- Fold `record_failed_login` over a list of failure instants. -/
def record_failures (s : FStore) (identifier : String)
    (max_attempts lockout_minutes : Nat) : List Nat → FStore
  | [] => s
  | t :: ts =>
      record_failures (record_failed_login s t identifier max_attempts lockout_minutes).1
        identifier max_attempts lockout_minutes ts

/-- The empty `failed_login` keyspace. -/
def emptyF : FStore := fun _ => none

/-- Outcomes of `AuthService.login`.  The source raises
`AccountLockedError`, `AuthenticationError` ("Invalid email or password"),
`AuthenticationError` ("Account is disabled") and `EmailNotVerifiedError`
respectively on the failure paths. -/
inductive LoginResult
  | ok
  | accountLocked
  | authFailed
  | disabled
  | emailNotVerified
  deriving DecidableEq, Repr

/-- Model of `AuthService.login`: lowercase the email, test the lock FIRST, then
look the user up, then verify the credential (`verifyp` stands for the
bcrypt `verify_password`), then the active and verified flags; on success
clear the failure counter.  Returns the outcome and the updated
`failed_login` keyspace. -/
def login (verifyp : String → String → Bool) (fs : FStore) (us : Users) (now : Nat)
    (email password : String) (max_attempts lockout_minutes : Nat) :
    LoginResult × FStore :=
  let e := email.toLower
  if is_account_locked fs now e max_attempts then (.accountLocked, fs)
  else
    match us e with
    | none => (.authFailed, (record_failed_login fs now e max_attempts lockout_minutes).1)
    | some u =>
        match u.hashed_password with
        | none => (.authFailed, (record_failed_login fs now e max_attempts lockout_minutes).1)
        | some h =>
            if verifyp password h then
              if u.is_active then
                if u.is_email_verified then (.ok, clear_failed_logins fs e)
                else (.emailNotVerified, fs)
              else (.disabled, fs)
            else (.authFailed, (record_failed_login fs now e max_attempts lockout_minutes).1)

/-- Outcomes of the validation prefix of `AuthService.signup`. -/
inductive SignupResult
  | ok
  | validationMismatch
  | validationWeak (errors : List String)
  | conflict
  deriving DecidableEq, Repr

/-- The validation prefix of `AuthService.signup`: confirmation match,
password strength, then duplicate email, in the order of the source. -/
def signup (us : Users) (email password confirm_password : String) : SignupResult :=
  if password ≠ confirm_password then .validationMismatch
  else if validate_password_strength password ≠ [] then
    .validationWeak (validate_password_strength password)
  else
    match us email.toLower with
    | some _ => .conflict
    | none => .ok

/-- The password complexity rule as the spec words it: length at least 8
characters, at least one uppercase letter, at least one lowercase letter,
at least one digit — and nothing else. -/
def passwordPolicySpec (password : String) : Prop :=
  8 ≤ password.length ∧ (∃ c ∈ password.data, c.isUpper) ∧
  (∃ c ∈ password.data, c.isLower) ∧ (∃ c ∈ password.data, c.isDigit)

/-- The result triple of `SlidingWindowRateLimiter.is_allowed`:
`(is_allowed, remaining_requests, retry_after_seconds)`. -/
structure RLResult where
  allowed : Bool
  remaining : Nat
  retry_after : Int
  deriving DecidableEq, Repr

/-- Step 1 of the limiter pipeline, `ZREMRANGEBYSCORE key 0 (now - window)`:
drop every timestamp whose score lies in `[0, now - window]`.  Timestamps
are modelled as rationals, as `time.time()` is sub-second. -/
def prune (w : Finset ℚ) (window now : ℚ) : Finset ℚ :=
  w.filter (fun s => ¬ (0 ≤ s ∧ s ≤ now - window))

/-- Model of `SlidingWindowRateLimiter.is_allowed` on a healthy store: the pipeline
prunes, counts (before adding), adds `now` and refreshes the key TTL; when
the pre-add count has reached the limit, the oldest member of the set is
read (after the add, so the set is nonempty),
`retry_after = int(oldest + window - now) + 1` is computed (for the
nonnegative values that arise from real clock readings Python's `int`
truncation is the floor), the just-added member is removed again, and
`(False, 0, retry_after)` is returned; otherwise
`(True, limit - count - 1, 0)`. -/
def is_allowed (w : Finset ℚ) (limit : Nat) (window now : ℚ) : RLResult × Finset ℚ :=
  let pruned := prune w window now
  let count := pruned.card
  if limit ≤ count then
    let oldest := (insert now pruned).min' (Finset.insert_nonempty _ _)
    (⟨false, 0, ⌊oldest + window - now⌋ + 1⟩, (insert now pruned).erase now)
  else
    (⟨true, limit - count - 1, 0⟩, insert now pruned)

/-- A sequence of `is_allowed` checks against one identifier's window,
threading the stored set through. -/
def runChecks (limit : Nat) (window : ℚ) : Finset ℚ → List ℚ → List RLResult × Finset ℚ
  | w, [] => ([], w)
  | w, now :: rest =>
      let p := is_allowed w limit window now
      let q := runChecks limit window p.2 rest
      (p.1 :: q.1, q.2)

/-- The store connection as `is_allowed` observes it: `absent` models
`_get_redis()` yielding no connection; `failing` a connection whose
operations raise. -/
inductive StoreConn
  | absent
  | healthy (w : Finset ℚ)
  | failing (w : Finset ℚ)

/-- Model of `SlidingWindowRateLimiter.is_allowed` with its two fault paths: on an
absent connection it returns `(True, limit, 0)` and emits no log line; when
a store operation raises, the handler prints "Rate limiter error: ..." and
returns `(True, limit, 0)`.  The middle component collects the log lines
the call emits. -/
def is_allowed_guarded (st : StoreConn) (limit : Nat) (window now : ℚ) :
    RLResult × List String × StoreConn :=
  match st with
  | .absent => (⟨true, limit, 0⟩, [], .absent)
  | .healthy w =>
      let p := is_allowed w limit window now
      (p.1, [], .healthy p.2)
  | .failing w => (⟨true, limit, 0⟩, ["Rate limiter error"], .failing w)

/-- Whether the backing store is unreachable in the given connection state. -/
def isStoreFault : StoreConn → Bool
  | .absent => true
  | .failing _ => true
  | .healthy _ => false

/-- The claims carried by a session token: `sub`, `iat`, `exp`, `type`
(`access` or `refresh`), and the `jti` unique id present on refresh
tokens only. -/
structure TokenPayload where
  sub : String
  iat : Int
  exp : Int
  typ : String
  jti : Option String
  deriving DecidableEq, Repr

/-- A presented token as `jose.jwt.decode` classifies it: structurally
malformed, or a well-formed payload together with the key it was signed
with (a tampered token is one signed with a key other than the process
secret). -/
inductive JwtToken
  | malformed
  | signed (payload : TokenPayload) (key : String)
  deriving DecidableEq, Repr

/-- Model of `decode_token`: `jwt.decode` verifies structure, signature (against
the process secret) and the `exp` claim (expired when `exp ≤ now`),
raising `JWTError` on any of the three; the handler catches `JWTError`
and returns `None`, one single failure outcome. -/
def decode_token (secret : String) (now : Int) : JwtToken → Option TokenPayload
  | .malformed => none
  | .signed p k => if k = secret ∧ now < p.exp then some p else none

/-- The payload built by `create_access_token` with the default TTL of
`ACCESS_TOKEN_EXPIRE_MINUTES` (extra claims such as roles and email are
not modelled; no flow under proof reads them). -/
def create_access_token (subject : String) (now : Int) (expire_minutes : Int) :
    TokenPayload :=
  ⟨subject, now, now + expire_minutes * 60, "access", none⟩

/-- The payload built by `create_refresh_token`: TTL of
`REFRESH_TOKEN_EXPIRE_DAYS` and a fresh unique `jti` (the random draw is
passed in as `jti`). -/
def create_refresh_token (subject : String) (now : Int) (expire_days : Int)
    (jti : String) : TokenPayload :=
  ⟨subject, now, now + expire_days * 86400, "refresh", some jti⟩

/-- Model of `AuthService.refresh_tokens`: decode, require `type = "refresh"`, look
the user up (by id) and require the active flag, then issue a fresh pair.
Note the function takes no store argument at all: the source consults no
revocation state when refreshing. -/
def refresh_tokens (us : Users) (secret : String) (now : Int)
    (expire_minutes expire_days : Int) (jti : String) (token : JwtToken) :
    Option (TokenPayload × TokenPayload) :=
  match decode_token secret now token with
  | none => none
  | some p =>
      if p.typ ≠ "refresh" then none
      else
        match us p.sub with
        | none => none
        | some u =>
            if u.is_active then
              some (create_access_token p.sub now expire_minutes,
                    create_refresh_token p.sub now expire_days jti)
            else none

/-- Model of `AuthService.logout`: appends one `LOGOUT` security event and returns
True.  It writes nothing to the shared store — in particular no
revocation entry keyed by the refresh token's `jti`; both token keyspaces
pass through unchanged. -/
def logout (vs : VStore) (fs : FStore) (events : List String) (user_id : String) :
    Bool × VStore × FStore × List String :=
  (true, vs, fs, events ++ ["LOGOUT:" ++ user_id])

/-- On a live, unused token for an existing unverified user, the marking
step rewrites exactly the token's record, with `used := true` and the same
absolute expiry. -/
theorem mark_verification_used_live
    (s : VStore) (now : Nat) (token : String) (r : VRecord)
    (hrec : s token = some r) (hlive : now < r.expiry) :
    (mark_verification_used s now token).1
      = setKey s token ⟨r.user_id, true, r.expiry⟩ ∧
    (mark_verification_used s now token).2 = true := by
  have hget : get_verification_token s now token = some r := by
    simp [get_verification_token, hrec, hlive]
  have httl : 0 < r.expiry - now := Nat.sub_pos_of_lt hlive
  have hexp : now + (r.expiry - now) = r.expiry := Nat.add_sub_cancel' (Nat.le_of_lt hlive)
  constructor
  · simp [mark_verification_used, hget, httl, hexp]
  · simp [mark_verification_used, hget, httl]

/-- A run of `verify_email` whose decision is any failure outcome performs
no write: it returns that outcome with the store and user table unchanged. -/
theorem verify_email_of_failure
    (s : VStore) (us : Users) (now : Nat) (token : String) (res : VerifyResult)
    (hdec : verify_decision s us now token = res)
    (hres : ∀ uid, res ≠ .ok uid) :
    verify_email s us now token = (res, s, us) := by
  cases res with
  | ok uid => exact absurd rfl (hres uid)
  | invalidOrExpired => simp [verify_email, hdec, verify_commit]
  | alreadyUsed => simp [verify_email, hdec, verify_commit]
  | userNotFound => simp [verify_email, hdec, verify_commit]
  | alreadyVerified => simp [verify_email, hdec, verify_commit]

/-- C1: the first redemption of a stored, unexpired, unused verify-email
token for an existing unverified user succeeds, and every later redemption
of the same raw token, at any instant at which the record still exists,
returns `AlreadyUsed` and leaves both the store and the user table
unchanged (so all subsequent attempts behave identically). -/
theorem verify_email_single_use
    (s : VStore) (us : Users) (now : Nat) (token : String) (r : VRecord) (u : User)
    (hrec : s token = some r) (hlive : now < r.expiry) (hused : r.used = false)
    (huser : us r.user_id = some u) (hver : u.is_email_verified = false) :
    (verify_email s us now token).1 = .ok r.user_id ∧
    ∀ t', t' < r.expiry →
      (verify_email (verify_email s us now token).2.1
          (verify_email s us now token).2.2 t' token).1 = .alreadyUsed ∧
      (verify_email (verify_email s us now token).2.1
          (verify_email s us now token).2.2 t' token).2
        = (verify_email s us now token).2 := by
  have hget : get_verification_token s now token = some r := by
    simp [get_verification_token, hrec, hlive]
  have hdec : verify_decision s us now token = .ok r.user_id := by
    simp [verify_decision, hget, hused, huser, hver]
  have hmark := mark_verification_used_live s now token r hrec hlive
  have hstore1 : (verify_email s us now token).2.1
      = setKey s token ⟨r.user_id, true, r.expiry⟩ := by
    simp [verify_email, hdec, verify_commit, hmark.1]
  refine ⟨by simp [verify_email, hdec], ?_⟩
  intro t' ht'
  have hrec2 : (verify_email s us now token).2.1 token = some ⟨r.user_id, true, r.expiry⟩ := by
    rw [hstore1]; simp [setKey]
  have hget2 : get_verification_token (verify_email s us now token).2.1 t' token
      = some ⟨r.user_id, true, r.expiry⟩ := by
    simp [get_verification_token, hrec2, ht']
  have hdec2 : verify_decision (verify_email s us now token).2.1
      (verify_email s us now token).2.2 t' token = .alreadyUsed := by
    simp [verify_decision, hget2]
  have hrun2 := verify_email_of_failure (verify_email s us now token).2.1
    (verify_email s us now token).2.2 t' token .alreadyUsed hdec2 (fun uid h => by cases h)
  rw [hrun2]
  exact ⟨rfl, rfl⟩

/-- Witness for C1 at a concrete store, user table and clock. -/
theorem verify_email_single_use_witness :
    (demoStore "tok" = some ⟨"u1", false, 900⟩ ∧ (10:Nat) < 900 ∧
     (⟨"u1", false, 900⟩ : VRecord).used = false ∧
     demoUsers "u1" = some ⟨some "pw", true, false⟩ ∧
     (⟨some "pw", true, false⟩ : User).is_email_verified = false) ∧
    ((verify_email demoStore demoUsers 10 "tok").1 = .ok "u1" ∧
     ∀ t', t' < 900 →
       (verify_email (verify_email demoStore demoUsers 10 "tok").2.1
           (verify_email demoStore demoUsers 10 "tok").2.2 t' "tok").1 = .alreadyUsed ∧
       (verify_email (verify_email demoStore demoUsers 10 "tok").2.1
           (verify_email demoStore demoUsers 10 "tok").2.2 t' "tok").2
         = (verify_email demoStore demoUsers 10 "tok").2) :=
  ⟨⟨by decide, by decide, by decide, by decide, by decide⟩,
   verify_email_single_use demoStore demoUsers 10 "tok" ⟨"u1", false, 900⟩
     ⟨some "pw", true, false⟩ (by decide) (by decide) (by decide) (by decide) (by decide)⟩

/-- C5 (amended): marking a verify-email token used changes only that
token's record, flipping `used` while keeping the same absolute expiry;
marking a reset-password token used (inside a successful
`reset_password`) instead rewrites the record with a fresh one-hour TTL,
so its expiry becomes `now + 3600` rather than the original expiry. -/
theorem mark_used_ttl_verify_preserved_reset_reset
    (s : VStore) (now : Nat) (token : String) (r : VRecord)
    (hrec : s token = some r) (hlive : now < r.expiry)
    (hashp : String → String) (rs : VStore) (us : Users)
    (token2 new_password : String) (d : VRecord) (u : User)
    (hrec2 : rs token2 = some d) (hlive2 : now < d.expiry) (hused2 : d.used = false)
    (huser2 : us d.user_id = some u)
    (hpw : validate_password_strength new_password = []) :
    ((mark_verification_used s now token).1 token = some ⟨r.user_id, true, r.expiry⟩ ∧
     ∀ k, k ≠ token → (mark_verification_used s now token).1 k = s k) ∧
    (reset_password hashp rs us now token2 new_password new_password).2.1 token2
      = some ⟨d.user_id, true, now + 3600⟩ := by
  have hmark := mark_verification_used_live s now token r hrec hlive
  refine ⟨⟨by rw [hmark.1]; simp [setKey], ?_⟩, ?_⟩
  · intro k hk
    rw [hmark.1]
    simp [setKey, hk]
  · have hget2 : get_verification_token rs now token2 = some d := by
      simp [get_verification_token, hrec2, hlive2]
    simp [reset_password, hpw, hget2, hused2, huser2, setKey]

/-- Witness for the amended C5 at concrete stores and clock. -/
theorem mark_used_ttl_witness :
    (demoStore "tok" = some ⟨"u1", false, 900⟩ ∧ (10:Nat) < 900 ∧
     demoResetStore "rtok" = some ⟨"u1", false, 3600⟩ ∧ (10:Nat) < 3600 ∧
     (⟨"u1", false, 3600⟩ : VRecord).used = false ∧
     demoUsers "u1" = some ⟨some "pw", true, false⟩ ∧
     validate_password_strength "Abcdef12" = []) ∧
    (((mark_verification_used demoStore 10 "tok").1 "tok" = some ⟨"u1", true, 900⟩ ∧
      ∀ k, k ≠ "tok" → (mark_verification_used demoStore 10 "tok").1 k = demoStore k) ∧
     (reset_password id demoResetStore demoUsers 10 "rtok" "Abcdef12" "Abcdef12").2.1 "rtok"
       = some ⟨"u1", true, 10 + 3600⟩) :=
  ⟨⟨by decide, by decide, by decide, by decide, by decide, by decide, by decide⟩,
   mark_used_ttl_verify_preserved_reset_reset demoStore 10 "tok" ⟨"u1", false, 900⟩
     (by decide) (by decide) id demoResetStore demoUsers "rtok" "Abcdef12"
     ⟨"u1", false, 3600⟩ ⟨some "pw", true, false⟩
     (by decide) (by decide) (by decide) (by decide) (by decide)⟩

/-- Counterexample to C5 as stated: a reset-password token issued at time 0
(expiry 3600) and redeemed at time 100 is written back with expiry 3700 —
the expiry is not preserved by marking the token used. -/
theorem reset_ttl_not_preserved_counterexample :
    (reset_password id demoResetStore demoUsers 100 "rtok" "Abcdef12" "Abcdef12").2.1 "rtok"
      = some ⟨"u1", true, 3700⟩ ∧ (3700 : Nat) ≠ 3600 := by
  constructor
  · decide
  · decide

/-- C6: under the read-read-write-write interleaving of two concurrent
redemptions of the same raw token, both callers observe `used = false` and
both succeed — whereas run sequentially the second redemption returns
`AlreadyUsed`.  The check and the flip of the `used` flag are not one
atomic store operation. -/
theorem verify_email_race_both_succeed :
    ((verify_email_race demoStore demoUsers 10 "tok").1.1 = .ok "u1" ∧
     (verify_email_race demoStore demoUsers 10 "tok").1.2 = .ok "u1") ∧
    (verify_email (verify_email demoStore demoUsers 10 "tok").2.1
        (verify_email demoStore demoUsers 10 "tok").2.2 10 "tok").1 = .alreadyUsed := by
  constructor
  · constructor
    · decide
    · decide
  · decide

/-- An existing live counter is incremented in place: the count goes up by
one and the expiry is untouched. -/
theorem record_failed_login_step (s : FStore) (now : Nat) (e : String)
    (c E M L : Nat) (hv : s e = some ⟨c, E⟩) (hlt : now < E) :
    (record_failed_login s now e M L).1 e = some ⟨c + 1, E⟩ := by
  have hl : liveF s now e = some ⟨c, E⟩ := by simp [liveF, hv, hlt]
  simp [record_failed_login, hl, setFKey]

/-- C3: with `max_attempts = 5`, four recorded failures leave the
identifier unlocked, the fifth `record_failed_login` reports the lock, the
identifier then tests locked, and a sixth login attempt returns
`AccountLocked` for EVERY user table, password and credential checker —
the lock test precedes identity lookup and password verification.  All
instants lie inside the lockout window anchored at the first failure. -/
theorem brute_force_lockout_after_five
    (email : String) (t1 t2 t3 t4 t5 tQ t6 : Nat) (lockout_minutes : Nat)
    (h2 : t2 < t1 + lockout_minutes * 60) (h3 : t3 < t1 + lockout_minutes * 60)
    (h4 : t4 < t1 + lockout_minutes * 60) (hQ : tQ < t1 + lockout_minutes * 60)
    (h5 : t5 < t1 + lockout_minutes * 60) (h6 : t6 < t1 + lockout_minutes * 60) :
    is_account_locked
        (record_failures emptyF email.toLower 5 lockout_minutes [t1, t2, t3, t4]) tQ
        email.toLower 5 = false ∧
    (record_failed_login
        (record_failures emptyF email.toLower 5 lockout_minutes [t1, t2, t3, t4]) t5
        email.toLower 5 lockout_minutes).2 = (5, true) ∧
    is_account_locked
        (record_failures emptyF email.toLower 5 lockout_minutes [t1, t2, t3, t4, t5]) t6
        email.toLower 5 = true ∧
    ∀ us verifyp password,
      (login verifyp
          (record_failures emptyF email.toLower 5 lockout_minutes [t1, t2, t3, t4, t5])
          us t6 email password 5 lockout_minutes).1 = .accountLocked := by
  have hv1 : (record_failed_login emptyF t1 email.toLower 5 lockout_minutes).1 email.toLower
      = some ⟨1, t1 + lockout_minutes * 60⟩ := by
    simp [record_failed_login, liveF, emptyF, setFKey]
  have hv2 := record_failed_login_step _ t2 email.toLower 1 _ 5 lockout_minutes hv1 h2
  have hv3 := record_failed_login_step _ t3 email.toLower 2 _ 5 lockout_minutes hv2 h3
  have hv4 := record_failed_login_step _ t4 email.toLower 3 _ 5 lockout_minutes hv3 h4
  have hv5 := record_failed_login_step _ t5 email.toLower 4 _ 5 lockout_minutes hv4 h5
  have hfs4 : (record_failures emptyF email.toLower 5 lockout_minutes [t1, t2, t3, t4])
      email.toLower = some ⟨4, t1 + lockout_minutes * 60⟩ := by
    simp only [record_failures]; exact hv4
  have hfs5 : (record_failures emptyF email.toLower 5 lockout_minutes [t1, t2, t3, t4, t5])
      email.toLower = some ⟨5, t1 + lockout_minutes * 60⟩ := by
    simp only [record_failures]; exact hv5
  have hlive4 : liveF
      (record_failures emptyF email.toLower 5 lockout_minutes [t1, t2, t3, t4]) t5
      email.toLower = some ⟨4, t1 + lockout_minutes * 60⟩ := by
    simp [liveF, hfs4, h5]
  have hlock : is_account_locked
      (record_failures emptyF email.toLower 5 lockout_minutes [t1, t2, t3, t4, t5]) t6
      email.toLower 5 = true := by
    simp [is_account_locked, liveF, hfs5, h6]
  refine ⟨?_, ?_, hlock, ?_⟩
  · simp [is_account_locked, liveF, hfs4, hQ]
  · simp [record_failed_login, hlive4]
  · intro us verifyp password
    simp [login, hlock]

/-- Witness for C3 at a concrete identifier, clock and lockout window. -/
theorem brute_force_lockout_witness :
    ((1:Nat) < 0 + 30 * 60 ∧ (2:Nat) < 0 + 30 * 60 ∧ (3:Nat) < 0 + 30 * 60 ∧
     (4:Nat) < 0 + 30 * 60 ∧ (5:Nat) < 0 + 30 * 60 ∧ (6:Nat) < 0 + 30 * 60) ∧
    (is_account_locked
        (record_failures emptyF "user@ex.com".toLower 5 30 [0, 1, 2, 3]) 4
        "user@ex.com".toLower 5 = false ∧
     (record_failed_login
        (record_failures emptyF "user@ex.com".toLower 5 30 [0, 1, 2, 3]) 5
        "user@ex.com".toLower 5 30).2 = (5, true) ∧
     is_account_locked
        (record_failures emptyF "user@ex.com".toLower 5 30 [0, 1, 2, 3, 5]) 6
        "user@ex.com".toLower 5 = true ∧
     ∀ us verifyp password,
       (login verifyp (record_failures emptyF "user@ex.com".toLower 5 30 [0, 1, 2, 3, 5])
          us 6 "user@ex.com" password 5 30).1 = .accountLocked) :=
  ⟨⟨by decide, by decide, by decide, by decide, by decide, by decide⟩,
   brute_force_lockout_after_five "user@ex.com" 0 1 2 3 5 4 6 30
     (by decide) (by decide) (by decide) (by decide) (by decide) (by decide)⟩

/-- C10: the strength check accepts a password exactly when it is at least
8 characters long and contains an uppercase letter, a lowercase letter and
a digit (no special-character and no maximum-length requirement); both the
signup path and the reset-password path fail with the strength
`Validation` error exactly when the rule is violated (confirmation
matching). -/
theorem password_policy_exact (password : String) :
    (validate_password_strength password = [] ↔ passwordPolicySpec password) ∧
    (∀ us email,
      signup us email password password
          = .validationWeak (validate_password_strength password)
        ↔ ¬ passwordPolicySpec password) ∧
    (∀ hashp rs us now token,
      (reset_password hashp rs us now token password password).1
          = .validationWeak (validate_password_strength password)
        ↔ ¬ passwordPolicySpec password) := by
  have hiff : validate_password_strength password = [] ↔ passwordPolicySpec password := by
    unfold validate_password_strength passwordPolicySpec
    by_cases h1 : password.length < 8 <;>
    by_cases h2 : password.data.any Char.isUpper <;>
    by_cases h3 : password.data.any Char.isLower <;>
    by_cases h4 : password.data.any Char.isDigit <;>
    simp_all [List.any_eq_true, Nat.not_lt, Nat.lt_iff_add_one_le]
  refine ⟨hiff, ?_, ?_⟩
  · intro us email
    constructor
    · intro h hp
      have hv : validate_password_strength password = [] := hiff.mpr hp
      cases husers : us email.toLower <;> simp [signup, hv, husers] at h
    · intro hp
      have hv : validate_password_strength password ≠ [] := fun h => hp (hiff.mp h)
      simp [signup, hv]
  · intro hashp rs us now token
    constructor
    · intro h hp
      have hv : validate_password_strength password = [] := hiff.mpr hp
      cases hget : get_verification_token rs now token with
      | none => simp [reset_password, hv, hget] at h
      | some d =>
        by_cases hu : d.used
        · simp [reset_password, hv, hget, hu] at h
        · cases huser : us d.user_id <;> simp [reset_password, hv, hget, hu, huser] at h
    · intro hp
      have hv : validate_password_strength password ≠ [] := fun h => hp (hiff.mp h)
      simp [reset_password, hv]

/-- Witness for C10 at a compliant password, a password with no special
character, and the empty user table. -/
theorem password_policy_witness :
    (validate_password_strength "Abcdef12" = [] ↔ passwordPolicySpec "Abcdef12") ∧
    (signup (fun _ => none) "a@b.c" "Abcdef12" "Abcdef12"
        = .validationWeak (validate_password_strength "Abcdef12")
      ↔ ¬ passwordPolicySpec "Abcdef12") :=
  ⟨(password_policy_exact "Abcdef12").1,
   (password_policy_exact "Abcdef12").2.1 (fun _ => none) "a@b.c"⟩

/-- When every stored timestamp is inside the trailing window, pruning
removes nothing. -/
theorem prune_eq_self (w : Finset ℚ) (window now : ℚ)
    (h : ∀ s ∈ w, now - window < s) : prune w window now = w := by
  apply Finset.filter_true_of_mem
  intro s hs
  exact fun hc => absurd hc.2 (not_le.mpr (h s hs))

/-- An `is_allowed` check under the limit: nothing is pruned, the request
is admitted and its timestamp recorded. -/
theorem is_allowed_under_limit (w : Finset ℚ) (limit : Nat) (window now : ℚ)
    (hs : ∀ s ∈ w, now - window < s) (hc : w.card < limit) :
    is_allowed w limit window now = (⟨true, limit - w.card - 1, 0⟩, insert now w) := by
  simp [is_allowed, prune_eq_self w window now hs, Nat.not_le.mpr hc]

/-- An `is_allowed` check at or over the limit: the request is rejected,
`retry_after` is the floored age formula plus one, and the just-added
timestamp is removed again. -/
theorem is_allowed_over_limit (w : Finset ℚ) (limit : Nat) (window now : ℚ)
    (hs : ∀ s ∈ w, now - window < s) (hc : limit ≤ w.card) :
    is_allowed w limit window now
      = (⟨false, 0,
          ⌊(insert now w).min' (Finset.insert_nonempty _ _) + window - now⌋ + 1⟩,
         (insert now w).erase now) := by
  simp [is_allowed, prune_eq_self w window now hs, hc]

/-- Lemma: `runChecks` splits over list append. -/
theorem runChecks_append (limit : Nat) (window : ℚ) (w : Finset ℚ) (l1 l2 : List ℚ) :
    runChecks limit window w (l1 ++ l2)
      = ((runChecks limit window w l1).1
           ++ (runChecks limit window (runChecks limit window w l1).2 l2).1,
         (runChecks limit window (runChecks limit window w l1).2 l2).2) := by
  induction l1 generalizing w with
  | nil => simp [runChecks]
  | cons t ts ih => simp [runChecks, ih]

/-- Running checks at strictly increasing instants, all bounded by `B` and
all within `window` of `B`, over a set of strictly earlier in-window
timestamps: every check is admitted and the final set is the union. -/
theorem runChecks_all_allowed (limit : Nat) (window B : ℚ) (ts : List ℚ) (w : Finset ℚ)
    (hwlt : ∀ s ∈ w, ∀ t ∈ ts, s < t)
    (hsort : ts.Pairwise (· < ·))
    (hle : ∀ t ∈ ts, t ≤ B)
    (hwin_w : ∀ s ∈ w, B - window < s)
    (hwin_ts : ∀ t ∈ ts, B - window < t)
    (hcard : w.card + ts.length ≤ limit) :
    (runChecks limit window w ts).1.map RLResult.allowed
      = List.replicate ts.length true ∧
    (runChecks limit window w ts).2 = w ∪ ts.toFinset := by
  induction ts generalizing w with
  | nil => simp [runChecks]
  | cons t rest ih =>
    have htmem : t ∈ t :: rest := List.mem_cons_self t rest
    have hsurv : ∀ s ∈ w, t - window < s := by
      intro s hsmem
      calc t - window ≤ B - window := by
            have := hle t htmem
            linarith
        _ < s := hwin_w s hsmem
    have htnot : t ∉ w := fun hmem => lt_irrefl t (hwlt t hmem t htmem)
    have hcardlt : w.card < limit := by
      rw [List.length_cons] at hcard
      omega
    have hstep := is_allowed_under_limit w limit window t hsurv hcardlt
    have hrest := ih (insert t w)
      (by
        intro s hsmem t' ht'
        rcases Finset.mem_insert.mp hsmem with h | h
        · exact lt_of_eq_of_lt h (List.rel_of_pairwise_cons hsort ht')
        · exact hwlt s h t' (List.mem_cons_of_mem t ht'))
      (List.Pairwise.of_cons hsort)
      (fun t' ht' => hle t' (List.mem_cons_of_mem t ht'))
      (by
        intro s hsmem
        rcases Finset.mem_insert.mp hsmem with h | h
        · exact lt_of_lt_of_eq (hwin_ts t htmem) h.symm
        · exact hwin_w s h)
      (fun t' ht' => hwin_ts t' (List.mem_cons_of_mem t ht'))
      (by rw [Finset.card_insert_of_not_mem htnot]; rw [List.length_cons] at hcard; omega)
    refine ⟨?_, ?_⟩
    · simp [runChecks, hstep, hrest.1, List.replicate_succ]
    · rw [show (runChecks limit window w (t :: rest)).2
          = (runChecks limit window (insert t w) rest).2 by simp [runChecks, hstep]]
      rw [hrest.2, List.toFinset_cons, Finset.insert_union, Finset.union_insert]

/-- C2: from an empty window, with `L = limit ≥ 1` strictly increasing
check instants followed by one more, all within `window` of the last one,
the first `L` checks are admitted and the `(L+1)`-th is rejected with a
strictly positive `retry_after`. -/
theorem rate_limit_first_L_allowed_then_rejected
    (limit : Nat) (hlim : 1 ≤ limit) (window : ℚ) (hw : 0 < window)
    (ts : List ℚ) (tl : ℚ) (hlen : ts.length = limit)
    (hsort : (ts ++ [tl]).Pairwise (· < ·))
    (hspan : ∀ a ∈ ts ++ [tl], tl - a < window) :
    (runChecks limit window ∅ (ts ++ [tl])).1.map RLResult.allowed
      = List.replicate limit true ++ [false] ∧
    0 < ((runChecks limit window ∅ (ts ++ [tl])).1.getLastD ⟨true, 0, 0⟩).retry_after := by
  have hsort_ts : ts.Pairwise (· < ·) := (List.pairwise_append.mp hsort).1
  have hlt_tl : ∀ a ∈ ts, a < tl := by
    intro a ha
    exact (List.pairwise_append.mp hsort).2.2 a ha tl (List.mem_singleton_self tl)
  have hwin_ts : ∀ a ∈ ts, tl - window < a := by
    intro a ha
    have := hspan a (List.mem_append_left _ ha)
    linarith
  have hrun := runChecks_all_allowed limit window tl ts ∅
    (by intro s hs; exact absurd hs (Finset.not_mem_empty s))
    hsort_ts (fun t ht => le_of_lt (hlt_tl t ht))
    (by intro s hs; exact absurd hs (Finset.not_mem_empty s))
    hwin_ts (by simp [hlen])
  have hnodup : ts.Nodup := List.Pairwise.imp ne_of_lt hsort_ts
  have hcard : (runChecks limit window ∅ ts).2.card = limit := by
    rw [hrun.2, Finset.empty_union, List.toFinset_card_of_nodup hnodup, hlen]
  have hsurv : ∀ s ∈ (runChecks limit window ∅ ts).2, tl - window < s := by
    intro s hs
    rw [hrun.2, Finset.empty_union, List.mem_toFinset] at hs
    exact hwin_ts s hs
  have hreject := is_allowed_over_limit (runChecks limit window ∅ ts).2 limit window tl
    hsurv (le_of_eq hcard.symm)
  have hmin_pos :
      0 < (insert tl (runChecks limit window ∅ ts).2).min'
            (Finset.insert_nonempty _ _) + window - tl := by
    have hmem := Finset.min'_mem (insert tl (runChecks limit window ∅ ts).2)
      (Finset.insert_nonempty _ _)
    rcases Finset.mem_insert.mp hmem with h | h
    · rw [h]; linarith
    · have := hsurv _ h
      linarith
  have hsplit := runChecks_append limit window ∅ ts [tl]
  have hlast : (runChecks limit window (runChecks limit window ∅ ts).2 [tl]).1
      = [(is_allowed (runChecks limit window ∅ ts).2 limit window tl).1] := by
    simp [runChecks]
  constructor
  · rw [hsplit]
    simp only [List.map_append, hrun.1, hlast, hreject]
    simp [hlen]
  · rw [hsplit]
    simp only [hlast, hreject]
    rw [List.getLastD_concat]
    show 0 < ⌊(insert tl (runChecks limit window ∅ ts).2).min'
        (Finset.insert_nonempty _ _) + window - tl⌋ + 1
    have : (0:Int) ≤ ⌊(insert tl (runChecks limit window ∅ ts).2).min'
        (Finset.insert_nonempty _ _) + window - tl⌋ :=
      Int.floor_nonneg.mpr (le_of_lt hmin_pos)
    omega

/-- Witness for C2: limit 2, window 60 s, checks at 0, 1 and 2 — the
first two admitted, the third rejected with positive retry. -/
theorem rate_limit_first_L_witness :
    ((1:Nat) ≤ 2 ∧ (0:ℚ) < 60 ∧ [(0:ℚ), 1].length = 2 ∧
     ([(0:ℚ), 1] ++ [2]).Pairwise (· < ·) ∧
     ∀ a ∈ [(0:ℚ), 1] ++ [2], 2 - a < 60) ∧
    ((runChecks 2 60 ∅ ([(0:ℚ), 1] ++ [2])).1.map RLResult.allowed
       = List.replicate 2 true ++ [false] ∧
     0 < ((runChecks 2 60 ∅ ([(0:ℚ), 1] ++ [2])).1.getLastD ⟨true, 0, 0⟩).retry_after) :=
  ⟨⟨by norm_num, by norm_num, by norm_num, by norm_num [List.pairwise_cons],
    by norm_num⟩,
   rate_limit_first_L_allowed_then_rejected 2 (by norm_num) 60 (by norm_num)
     [(0:ℚ), 1] 2 (by norm_num) (by norm_num [List.pairwise_cons]) (by norm_num)⟩

/-- C4 (amended): on rejection the window set keeps no net trace of the
rejected request — the just-added timestamp is removed again — and the
returned `retry_after` is `⌊oldest_remaining + window - now⌋ + 1`, i.e.
the exact value `oldest_remaining + window - now` rounded down plus one
second, not that exact value itself. -/
theorem rate_limit_reject_shape (w : Finset ℚ) (limit : Nat) (window now : ℚ)
    (hc : limit ≤ (prune w window now).card) :
    (is_allowed w limit window now).1.allowed = false ∧
    (is_allowed w limit window now).1.retry_after
      = ⌊(insert now (prune w window now)).min' (Finset.insert_nonempty _ _)
          + window - now⌋ + 1 ∧
    (is_allowed w limit window now).2 = (insert now (prune w window now)).erase now ∧
    now ∉ (is_allowed w limit window now).2 := by
  refine ⟨by simp [is_allowed, hc], by simp [is_allowed, hc], by simp [is_allowed, hc], ?_⟩
  have h2 : (is_allowed w limit window now).2
      = (insert now (prune w window now)).erase now := by simp [is_allowed, hc]
  rw [h2]
  exact Finset.not_mem_erase now _

/-- The one-element window `{0}` is untouched by pruning at `now = 1`,
`window = 60`. -/
theorem prune_singleton_demo : prune {(0:ℚ)} 60 1 = {(0:ℚ)} := by
  apply prune_eq_self
  intro s hs
  rw [Finset.mem_singleton] at hs
  rw [hs]
  norm_num

/-- The minimum of the concrete two-element window `{1, 0}`. -/
theorem min_demo :
    (insert (1:ℚ) ({(0:ℚ)} : Finset ℚ)).min' (Finset.insert_nonempty _ _) = 0 := by
  apply le_antisymm
  · exact Finset.min'_le _ 0 (by simp)
  · apply Finset.le_min'
    intro y hy
    rcases Finset.mem_insert.mp hy with h | h
    · rw [h]; norm_num
    · rw [Finset.mem_singleton] at h; rw [h]

/-- Witness for the amended C4: one stored timestamp 0, limit 1, window
60 s, a rejected check at now = 1. -/
theorem rate_limit_reject_shape_witness :
    (1 ≤ (prune {(0:ℚ)} 60 1).card) ∧
    ((is_allowed {(0:ℚ)} 1 60 1).1.allowed = false ∧
     (is_allowed {(0:ℚ)} 1 60 1).1.retry_after
       = ⌊(insert (1 : ℚ) (prune {(0:ℚ)} 60 1)).min' (Finset.insert_nonempty _ _)
           + 60 - 1⌋ + 1 ∧
     (is_allowed {(0:ℚ)} 1 60 1).2
       = (insert (1 : ℚ) (prune {(0:ℚ)} 60 1)).erase 1 ∧
     (1 : ℚ) ∉ (is_allowed {(0:ℚ)} 1 60 1).2) :=
  ⟨by rw [prune_singleton_demo]; simp,
   rate_limit_reject_shape {(0:ℚ)} 1 60 1 (by rw [prune_singleton_demo]; simp)⟩

/-- Counterexample to C4 as stated: with the single stored timestamp 0,
window 60 s and a rejected check at now = 1, the code returns
`retry_after = ⌊0 + 60 - 1⌋ + 1 = 60`, while
`oldest_remaining + window - now = 59` — the returned value is not equal
to that formula. -/
theorem rate_limit_retry_not_exact_counterexample :
    (is_allowed {(0:ℚ)} 1 60 1).1.retry_after = 60 ∧
    ((60 : ℚ) ≠ (0 : ℚ) + 60 - 1) := by
  have hsurv : ∀ s ∈ ({(0:ℚ)} : Finset ℚ), (1:ℚ) - 60 < s := by
    intro s hs
    rw [Finset.mem_singleton] at hs
    rw [hs]
    norm_num
  have h := is_allowed_over_limit {(0:ℚ)} 1 60 1 hsurv (by simp)
  rw [h]
  constructor
  · show ⌊(insert (1:ℚ) ({(0:ℚ)} : Finset ℚ)).min' (Finset.insert_nonempty _ _) + 60 - 1⌋ + 1
        = 60
    rw [min_demo]
    have : ((0:ℚ) + 60 - 1) = ((59 : Int) : ℚ) := by norm_num
    rw [this, Int.floor_intCast]
    norm_num
  · norm_num

/-- C8 (amended): whenever the backing store is unreachable the check
returns `allowed = true` with the full limit remaining and no retry delay;
the fault is logged when a store operation raises, but the absent-connection
path allows the request silently, emitting no log line. -/
theorem rate_limit_fail_open (st : StoreConn) (limit : Nat) (window now : ℚ)
    (hf : isStoreFault st = true) :
    (is_allowed_guarded st limit window now).1 = ⟨true, limit, 0⟩ ∧
    ((is_allowed_guarded st limit window now).2.1 = [] ↔ st = .absent) := by
  cases st with
  | absent => exact ⟨rfl, by simp [is_allowed_guarded]⟩
  | healthy w => simp [isStoreFault] at hf
  | failing w =>
      refine ⟨rfl, ?_⟩
      constructor
      · intro h; cases h
      · intro h; cases h

/-- Witness for the amended C8 at a raising connection over an empty
window. -/
theorem rate_limit_fail_open_witness :
    (isStoreFault (.failing ∅) = true) ∧
    ((is_allowed_guarded (.failing ∅) 60 60 0).1 = ⟨true, 60, 0⟩ ∧
     ((is_allowed_guarded (.failing ∅) 60 60 0).2.1 = [] ↔ (.failing ∅ : StoreConn) = .absent)) :=
  ⟨rfl, rate_limit_fail_open (.failing ∅) 60 60 0 rfl⟩

/-- Counterexample to C8 as stated: with the connection absent the check
allows the request but emits no log line — the fault is silently
swallowed on this path. -/
theorem rate_limit_silent_fail_counterexample :
    isStoreFault .absent = true ∧
    (is_allowed_guarded .absent 60 60 0).1.allowed = true ∧
    (is_allowed_guarded .absent 60 60 0).2.1 = [] :=
  ⟨rfl, rfl, rfl⟩

/-- C7: `decode_token` has exactly one failure outcome — a malformed
token, a token signed with a key other than the secret (tampered
signature) and an expired token all yield the same result, `none`; the
caller cannot tell which check failed. -/
theorem decode_single_failure_outcome (secret : String) (now : Int) (t : JwtToken)
    (h : t = .malformed ∨ (∃ p k, t = .signed p k ∧ k ≠ secret)
       ∨ (∃ p k, t = .signed p k ∧ p.exp ≤ now)) :
    decode_token secret now t = none := by
  rcases h with h | ⟨p, k, rfl, hk⟩ | ⟨p, k, rfl, he⟩
  · rw [h]; rfl
  · simp [decode_token, hk]
  · have hnl : ¬ now < p.exp := not_lt.mpr he
    simp [decode_token, hnl]

/-- Witness for C7: a tampered-signature token and an expired token both
decode to `none` under the secret "sec" at time 100. -/
theorem decode_single_failure_witness :
    ((JwtToken.signed ⟨"u1", 0, 1000, "refresh", some "j"⟩ "evil" = .malformed ∨
      (∃ p k, JwtToken.signed ⟨"u1", 0, 1000, "refresh", some "j"⟩ "evil" = .signed p k
         ∧ k ≠ "sec") ∨
      (∃ p k, JwtToken.signed ⟨"u1", 0, 1000, "refresh", some "j"⟩ "evil" = .signed p k
         ∧ p.exp ≤ 100)) ∧
     decode_token "sec" 100 (.signed ⟨"u1", 0, 1000, "refresh", some "j"⟩ "evil") = none) ∧
    ((JwtToken.signed ⟨"u1", 0, 50, "access", none⟩ "sec" = .malformed ∨
      (∃ p k, JwtToken.signed ⟨"u1", 0, 50, "access", none⟩ "sec" = .signed p k
         ∧ k ≠ "sec") ∨
      (∃ p k, JwtToken.signed ⟨"u1", 0, 50, "access", none⟩ "sec" = .signed p k
         ∧ p.exp ≤ 100)) ∧
     decode_token "sec" 100 (.signed ⟨"u1", 0, 50, "access", none⟩ "sec") = none) :=
  ⟨⟨Or.inr (Or.inl ⟨⟨"u1", 0, 1000, "refresh", some "j"⟩, "evil", rfl, by decide⟩),
    decode_single_failure_outcome "sec" 100 _
      (Or.inr (Or.inl ⟨⟨"u1", 0, 1000, "refresh", some "j"⟩, "evil", rfl, by decide⟩))⟩,
   ⟨Or.inr (Or.inr ⟨⟨"u1", 0, 50, "access", none⟩, "sec", rfl, by decide⟩),
    decode_single_failure_outcome "sec" 100 _
      (Or.inr (Or.inr ⟨⟨"u1", 0, 50, "access", none⟩, "sec", rfl, by decide⟩))⟩⟩

/-- C9: `logout` leaves every token keyspace unchanged (it only records an
event), and `refresh_tokens` — which consults no revocation state at all —
succeeds on any valid, unexpired refresh token of an active user; hence
the refresh token issued at login remains redeemable after logout, until
its natural expiry. -/
theorem logout_does_not_revoke_refresh
    (vs : VStore) (fs : FStore) (events : List String) (user_id : String)
    (us : Users) (secret : String) (now : Int)
    (expire_minutes expire_days : Int) (jti : String)
    (tok : JwtToken) (p : TokenPayload) (u : User)
    (hdec : decode_token secret now tok = some p) (htyp : p.typ = "refresh")
    (hu : us p.sub = some u) (hact : u.is_active = true) :
    (logout vs fs events user_id).2.1 = vs ∧
    (logout vs fs events user_id).2.2.1 = fs ∧
    refresh_tokens us secret now expire_minutes expire_days jti tok
      = some (create_access_token p.sub now expire_minutes,
              create_refresh_token p.sub now expire_days jti) := by
  refine ⟨rfl, rfl, ?_⟩
  simp [refresh_tokens, hdec, htyp, hu, hact]

/-- Witness for C9: a concrete refresh token decoded under the secret
"sec" at time 100 still refreshes after a logout. -/
theorem logout_does_not_revoke_witness :
    (decode_token "sec" 100 (.signed ⟨"u1", 0, 1000, "refresh", some "j0"⟩ "sec")
       = some ⟨"u1", 0, 1000, "refresh", some "j0"⟩ ∧
     (⟨"u1", 0, 1000, "refresh", some "j0"⟩ : TokenPayload).typ = "refresh" ∧
     demoUsers "u1" = some ⟨some "pw", true, false⟩ ∧
     (⟨some "pw", true, false⟩ : User).is_active = true) ∧
    ((logout demoStore emptyF [] "u1").2.1 = demoStore ∧
     (logout demoStore emptyF [] "u1").2.2.1 = emptyF ∧
     refresh_tokens demoUsers "sec" 100 15 7 "j1"
        (.signed ⟨"u1", 0, 1000, "refresh", some "j0"⟩ "sec")
       = some (create_access_token "u1" 100 15, create_refresh_token "u1" 100 7 "j1")) :=
  ⟨⟨by decide, by decide, by decide, by decide⟩,
   logout_does_not_revoke_refresh demoStore emptyF [] "u1" demoUsers "sec" 100 15 7 "j1"
     (.signed ⟨"u1", 0, 1000, "refresh", some "j0"⟩ "sec")
     ⟨"u1", 0, 1000, "refresh", some "j0"⟩ ⟨some "pw", true, false⟩
     (by decide) (by decide) (by decide) (by decide)⟩

end GhostFlow
